import Mathlib

/-!
# Verification of the RAG Quiz App core against its specification

Shallow embedding of the repository's core data model and operations:

* the frontend API layer (`frontend/lib/api.ts`, `frontend/lib/types.ts`):
  `fetchApi`, `toApiError`, the `AnswerView` citation slice;
* the quiz generation pipeline (statement normalization and duplicate
  detection from `generation_handler.py` as quoted in the repository's
  investigation reports, the citation fallback of `parser.py`, the
  false-statement guard of `generator.py`, the validator and mutator);
* the ask pipeline (reciprocal-rank fusion, reranking gates, top-k cut).

Backend modules absent from the source tree are modelled from the
specification and from the code excerpts quoted in the repository's
own reports; each such definition is marked `Modelled from the spec:`.
-/

namespace RagQuiz

/-! ## JavaScript value model (frontend `lib/types.ts`, `lib/api.ts`)

`JsValue` models the runtime values the frontend error helpers receive:
JSON values plus instances of the `ApiError` class. -/

inductive JsValue where
  | null
  | undefined
  | bool (b : Bool)
  | num (n : Int)
  | str (s : String)
  | arr (elems : List JsValue)
  | obj (fields : List (String × JsValue))
  | apiError (code message : JsValue) (status : Option Nat)
deriving Repr

namespace JsValue

/-- JavaScript truthiness: `null`, `undefined`, `false`, `0` and `""` are
falsy; every object (including arrays and class instances) is truthy. -/
def truthy : JsValue → Bool
  | .null => false
  | .undefined => false
  | .bool b => b
  | .num n => n != 0
  | .str s => s != ""
  | .arr _ => true
  | .obj _ => true
  | .apiError _ _ _ => true

/-- `typeof v === "object"` (for non-null values appearing after a
truthiness check; arrays and class instances are objects). -/
def isObjectType : JsValue → Bool
  | .null => true
  | .arr _ => true
  | .obj _ => true
  | .apiError _ _ _ => true
  | _ => false

/-- Property lookup: `k in v` holds exactly when `getField v k` is `some`.
`ApiError` instances expose `code` and `message`. -/
def getField : JsValue → String → Option JsValue
  | .obj fields, k => (fields.find? (fun p => p.1 = k)).map (·.2)
  | .apiError c _ _, "code" => some c
  | .apiError _ m _, "message" => some m
  | _, _ => none

/-- Optional chaining `v?.k`: `null`/`undefined` propagate `undefined`;
a missing property or a primitive receiver reads as `undefined`. -/
def optGet (v : JsValue) (k : String) : JsValue :=
  match v with
  | .null => .undefined
  | .undefined => .undefined
  | w => (getField w k).getD .undefined

/-- `v instanceof ApiError`. -/
def isApiErrorValue : JsValue → Bool
  | .apiError _ _ _ => true
  | _ => false

end JsValue

/-! ## `toApiError` (frontend `lib/types.ts` lines 48-59) -/

/-- The fixed fallback message of `toApiError`. -/
def unknownErrorMessage : String := "不明なエラーが発生しました。"

/-- `toApiError` from `frontend/lib/types.ts`: an `ApiError` is returned
unchanged; an object whose `error` field carries truthy `code` and
`message` is converted to an `ApiError` with those fields; everything
else maps to `INTERNAL_ERROR` with a fixed message. -/
def toApiError (e : JsValue) : JsValue :=
  if e.isApiErrorValue then e
  else if e.truthy && e.isObjectType && (e.getField "error").isSome then
    let errField := (e.getField "error").getD .undefined
    let c := errField.optGet "code"
    let m := errField.optGet "message"
    if c.truthy && m.truthy then .apiError c m none
    else .apiError (.str "INTERNAL_ERROR") (.str unknownErrorMessage) none
  else .apiError (.str "INTERNAL_ERROR") (.str unknownErrorMessage) none

/-! ## `fetchApi` (frontend `lib/api.ts` lines 18-93) -/

/-- An HTTP response as seen by `fetchApi`: status line plus the parsed
JSON body (`none` when `response.json()` rejects). -/
structure HttpResponse where
  ok : Bool
  status : Nat
  statusText : String
  body : Option JsValue
deriving Repr

/-- Outcome of the `fetch` call itself: either the promise rejected
(network error) or a response arrived. -/
inductive FetchOutcome where
  | networkError
  | response (r : HttpResponse)
deriving Repr

/-- The network-error message used by `fetchApi`. -/
def networkErrorMessage : String := "APIに接続できません。再試行してください。"

/-- The malformed-response message used by `fetchApi`. -/
def badFormatMessage : String := "レスポンス形式が不正です。"

/-- `HTTP <status>: <statusText>` fallback message. -/
def httpStatusMessage (status : Nat) (statusText : String) : String :=
  "HTTP " ++ toString status ++ ": " ++ statusText

/-- The structured-error test of `fetchApi` (lines 64-72): the body is a
truthy object whose truthy object-typed `error` field has both `code`
and `message` properties. -/
def structuredError (data : JsValue) : Option (JsValue × JsValue) :=
  if data.truthy && data.isObjectType && (data.getField "error").isSome then
    let errField := (data.getField "error").getD .undefined
    if errField.truthy && errField.isObjectType
        && (errField.getField "code").isSome && (errField.getField "message").isSome then
      some ((errField.getField "code").getD .undefined,
            (errField.getField "message").getD .undefined)
    else none
  else none

/-- `fetchApi` from `frontend/lib/api.ts`: every failure path raises an
`ApiError`; a successful call returns the parsed object body. -/
def fetchApi (o : FetchOutcome) : Except JsValue JsValue :=
  match o with
  | .networkError =>
      .error (.apiError (.str "NETWORK_ERROR") (.str networkErrorMessage) none)
  | .response r =>
      match r.body with
      | none =>
          if !r.ok then
            .error (.apiError (.str "INTERNAL_ERROR")
              (.str (httpStatusMessage r.status r.statusText)) none)
          else
            .error (.apiError (.str "INTERNAL_ERROR") (.str badFormatMessage) none)
      | some data =>
          if !r.ok then
            match structuredError data with
            | some (c, m) => .error (.apiError c m (some r.status))
            | none =>
                .error (.apiError (.str "INTERNAL_ERROR")
                  (.str (httpStatusMessage r.status r.statusText)) none)
          else
            if data.truthy && data.isObjectType then .ok data
            else .error (.apiError (.str "INTERNAL_ERROR") (.str badFormatMessage) none)

/-! ## Quiz data model -/

/-- A citation: a grounded excerpt backing a statement
(`app/schemas/common.py`, mirrored by `frontend/lib/types.ts`). -/
structure Citation where
  source : String
  page : Option Int
  quote : String
deriving Repr, DecidableEq

/-- A quiz item draft as produced by one generation attempt. -/
structure QuizDraft where
  statement : String
  answer_bool : Bool
  explanation : String
  citations : List Citation
deriving Repr

/-! ## Statement normalization and duplicate detection
(`backend/app/quiz/generation_handler.py`, quoted in the quality report) -/

/-- Characters matched by Python's `\s` on the statements in play. -/
def isPythonSpace (c : Char) : Bool :=
  c = ' ' || c = '\t' || c = '\n' || c = '\r' || c = '\x0b' || c = '\x0c' || c = '　'

/-- `pat` matches at the head of the text. -/
def matchesAt : List Char → List Char → Bool
  | [], _ => true
  | _ :: _, [] => false
  | p :: ps, c :: cs => p = c && matchesAt ps cs

/-- `pat` occurs somewhere in the text. -/
def listContains (pat : List Char) : List Char → Bool
  | [] => matchesAt pat []
  | c :: cs => matchesAt pat (c :: cs) || listContains pat cs

/-- Strip `pat` from the head of the text, if it matches there. -/
def stripAt : List Char → List Char → Option (List Char)
  | [], l => some l
  | _ :: _, [] => none
  | p :: ps, c :: cs => if p = c then stripAt ps cs else none

/-- Substring test: `pat` occurs somewhere in `s`. -/
def containsSub (s pat : String) : Bool :=
  listContains pat.toList s.toList

/-- `pat` occurs at the end of `s`. -/
def endsWithSub (s pat : String) : Bool :=
  matchesAt pat.toList.reverse s.toList.reverse

/-- `_normalize_statement` from `generation_handler.py`: strip whitespace,
strip the punctuation characters `。`, `、`, `.`, `,`, then lowercase.
No negation markers are removed. -/
def _normalize_statement (statement : String) : String :=
  let noSpace := statement.toList.filter (fun c => !isPythonSpace c)
  let noPunct := noSpace.filter (fun c => !(c = '。' || c = '、' || c = '.' || c = ','))
  String.mk (noPunct.map Char.toLower)

/-- `_is_duplicate` from `generation_handler.py`: a new statement is a
duplicate when its normalization equals that of an already-accepted one. -/
def _is_duplicate (newStatement : String) (existing : List String) : Bool :=
  existing.any (fun e => _normalize_statement e = _normalize_statement newStatement)

/-! ## Citation fallback in the parser
(`backend/app/quiz/parser.py`, quoted in the investigation reports) -/

/-- `_parse_single_quiz` citation handling from `parser.py`: if the
generation backend returned an empty, missing or malformed citations
field (`none` here), the first three fallback citations are substituted
verbatim; otherwise the backend's citations are kept. No source filter
is applied on either branch. -/
def resolve_citations (llmCitations : Option (List Citation))
    (fallback : List Citation) : List Citation :=
  match llmCitations with
  | some cs => if cs.isEmpty then fallback.take 3 else cs
  | none => fallback.take 3

/-! ## Validator (`backend/app/quiz/validator.py`) -/

/-- Minimum statement length in characters: statements shorter than 12
characters are rejected. -/
def quizMinStatementLen : Nat := 12

/-- Interrogative markers rejected by the validator. -/
def interrogativeMarkers : List String := ["?", "？", "でしょうか", "ですか"]

/-- Modelled from the spec: `validator.py` is absent from the source
tree; this is its fixed vagueness-marker list (hedges such as "may",
"is desirable", "in some cases"). -/
def vagueMarkers : List String :=
  ["場合がある", "ことがある", "かもしれない", "望ましい",
   "できれば", "なるべく", "一般的に", "可能性がある"]

/-- Modelled from the spec: `validate_quiz_item` from `validator.py` is
absent from the source tree. Per the spec and the README it rejects,
with a stable reason code, statements that are empty or below the
minimum length, interrogative, vague, or whose citations are missing or
carry an empty quote/source, and accepts everything else. -/
def validate_quiz_item (statement : String) (citations : List Citation) :
    Option String :=
  if statement = "" || statement.length < quizMinStatementLen then
    some "too_short"
  else if interrogativeMarkers.any (fun m => containsSub statement m) then
    some "interrogative"
  else if vagueMarkers.any (fun m => containsSub statement m) then
    some "ambiguous_expression"
  else if citations.isEmpty then
    some "citations_empty"
  else if citations.any (fun c => c.quote = "" || c.source = "") then
    some "citation_invalid"
  else
    none

/-! ## True/False mutator (`backend/app/quiz/mutator.py`) and the
false-statement guard (`backend/app/quiz/generator.py` lines 314-323) -/

/-- Replace the first occurrence of `pat` by `repl` in a character list. -/
def replaceFirstChars (pat repl : List Char) : List Char → List Char
  | [] => []
  | c :: cs =>
    match stripAt pat (c :: cs) with
    | some rest => repl ++ rest
    | none => c :: replaceFirstChars pat repl cs

/-- Replace the first occurrence of `pat` in `s` by `repl`. -/
def replaceFirst (s pat repl : String) : String :=
  String.mk (replaceFirstChars pat.toList repl.toList s.toList)

/-- Modelled from the spec: the ordered transform table of
`make_false_statement` in `mutator.py` (absent from the source tree),
with the rules listed in the repository's fix report. -/
def negationRules : List (String × String) :=
  [("行う", "行わない"), ("確認する", "確認しない"), ("連絡する", "連絡しない"),
   ("報告する", "報告しない"), ("実施する", "実施しない"), ("実行する", "実行しない"),
   ("必要である", "不要である"), ("必須である", "任意である"),
   ("禁止されている", "必須である")]

/-- Modelled from the spec: `make_false_statement` from `mutator.py` is
absent from the source tree. It applies the first matching rule of the
ordered table, falls back to sentence-final negation, and reports
failure (`none`) when no rule applies. -/
def make_false_statement (s : String) : Option String :=
  match negationRules.find? (fun r => containsSub s r.1) with
  | some r => some (replaceFirst s r.1 r.2)
  | none =>
    if endsWithSub s "する。" then
      some (String.mk (s.toList.take (s.toList.length - 3)) ++ "しない。")
    else if endsWithSub s "である。" then
      some (String.mk (s.toList.take (s.toList.length - 4)) ++ "ではない。")
    else none

/-- The false-statement guard from `generator.py` lines 314-323 (quoted
in the quality report): a mutated statement is accepted only when it is
non-empty and differs from the original; otherwise the attempt is
rejected with reason `false_generation_failed`. -/
def process_false_statement (original : String) (falseStatement : Option String) :
    Except String String :=
  match falseStatement with
  | some f => if f ≠ "" ∧ f ≠ original then .ok f else .error "false_generation_failed"
  | none => .error "false_generation_failed"

/-! ## Generation orchestrator
(`backend/app/quiz/generation_handler.py` retry/dedup loop) -/

/-- Accumulator state of the generation loop: accepted items and the
rejection log (statement preview, stable reason code). -/
structure GenState where
  accepted : List QuizDraft
  rejected : List (String × String)
deriving Repr

/-- Modelled from the spec: one iteration of the retry loop in
`generate_quizzes_with_retry` (`generation_handler.py`, quoted in
fragments in the reports). A draft is validated, then checked against
the accepted statements with `_is_duplicate`; failures are folded into
the rejection log, never silently dropped. Once the target is reached
further attempts are ignored. -/
def processAttempt (target : Nat) (st : GenState) (draft : Option QuizDraft) :
    GenState :=
  if target ≤ st.accepted.length then st
  else
    match draft with
    | none => { st with rejected := st.rejected ++ [("", "generation_failed")] }
    | some d =>
      match validate_quiz_item d.statement d.citations with
      | some reason => { st with rejected := st.rejected ++ [(d.statement, reason)] }
      | none =>
        if _is_duplicate d.statement (st.accepted.map (·.statement)) then
          { st with rejected := st.rejected ++ [(d.statement, "duplicate_statement")] }
        else
          { st with accepted := st.accepted ++ [d] }

/-- Outcome of a quiz-set generation request: either exactly the target
number of items, or an explicit shortage carrying the shortfall and the
rejection breakdown. -/
inductive GenOutcome where
  | done (items : List QuizDraft)
  | shortage (shortfall : Nat) (rejections : List (String × String))
deriving Repr

/-- Modelled from the spec: the caller-visible contract of
`generate_quizzes_with_retry` / the quiz-generate route. The bounded
attempt sequence is folded through `processAttempt`; reaching the
target yields `done`, anything less yields an explicit `shortage`
(surfaced as HTTP 422 with `shortage` and `reject_reason_counts` per
the repository's quality test script). -/
def generate_quiz_set (target : Nat) (attempts : List (Option QuizDraft)) :
    GenOutcome :=
  let st := attempts.foldl (processAttempt target) ⟨[], []⟩
  if st.accepted.length = target then .done st.accepted
  else .shortage (target - st.accepted.length) st.rejected

/-! ## Reciprocal-rank fusion
(`backend/app/rag/hybrid_retrieval.py`, formula documented in the README:
`rrf_score = w_sem / (20 + rank_sem) + w_kw / (20 + rank_kw)`) -/

/-- The RRF constant `RRF_K` (default 20). -/
def RRF_K : ℚ := 20

/-- Insert `delta` for `id` into an association list of fused scores,
adding to an existing entry or appending a fresh one. -/
def upsertScore {α : Type} [DecidableEq α] (id : α) (delta : ℚ) :
    List (α × ℚ) → List (α × ℚ)
  | [] => [(id, delta)]
  | (j, s) :: rest =>
      if j = id then (j, s + delta) :: rest else (j, s) :: upsertScore id delta rest

/-- Accumulate one ranked candidate list into the fused scores: the
candidate at (1-based) rank `r` receives `w / (RRF_K + r)`. -/
def addListScores {α : Type} [DecidableEq α] (w : ℚ) :
    List α → Nat → List (α × ℚ) → List (α × ℚ)
  | [], _, scores => scores
  | id :: rest, rank, scores =>
      addListScores w rest (rank + 1) (upsertScore id (w / (RRF_K + (rank : ℚ))) scores)

/-- Modelled from the spec: reciprocal-rank fusion from
`hybrid_retrieval.py` (absent from the source tree; formula in the
README). Both ranked lists are folded into one score table; the keyword
weight is `1 - wSem`. -/
def rrf_fuse {α : Type} [DecidableEq α] (wSem : ℚ) (semList kwList : List α) :
    List (α × ℚ) :=
  addListScores (1 - wSem) kwList 1 (addListScores wSem semList 1 [])

/-- The fused score of a candidate (0 when absent from the table). -/
def lookupScore {α : Type} [DecidableEq α] : List (α × ℚ) → α → ℚ
  | [], _ => 0
  | (j, s) :: rest, id => if j = id then s else lookupScore rest id

/-- 0-based position of a candidate in a ranked list, `none` if absent. -/
def rankInList {α : Type} [DecidableEq α] : List α → α → Option Nat
  | [], _ => none
  | a :: rest, id =>
      if a = id then some 0 else (rankInList rest id).map (· + 1)

/-- The documented closed formula for the fused score: each list
contributes `w / (RRF_K + rank)` with 1-based rank, and a candidate
absent from a list contributes 0 for that term. -/
def rrf_formula {α : Type} [DecidableEq α] (wSem : ℚ) (semList kwList : List α)
    (id : α) : ℚ :=
  (match rankInList semList id with
   | some i => wSem / (RRF_K + ((i + 1 : Nat) : ℚ))
   | none => 0) +
  (match rankInList kwList id with
   | some i => (1 - wSem) / (RRF_K + ((i + 1 : Nat) : ℚ))
   | none => 0)

/-- `RetrievalSlider` from
`frontend/features/qa/components/RetrievalSlider.tsx`: the user supplies
only the semantic weight; the keyword weight is `1 - value`. -/
def retrievalSliderWeights (value : ℚ) : ℚ × ℚ :=
  (value, 1 - value)

/-! ## Hybrid retrieval tail: rerank gates and top-k cut -/

/-- Final citation count `TOP_K` (default 5). -/
def TOP_K : Nat := 5

/-- Absolute rerank admission floor `RERANK_SCORE_THRESHOLD` (-1.5). -/
def RERANK_SCORE_THRESHOLD : ℚ := -(3 / 2)

/-- Relative gap ceiling `RERANK_SCORE_GAP_THRESHOLD` (6.0). -/
def RERANK_SCORE_GAP_THRESHOLD : ℚ := 6

/-- `clamp(x, lo, hi)` on naturals. -/
def clampNat (x lo hi : Nat) : Nat := min hi (max lo x)

/-- `candidate_k = clamp(collection_count * 0.005, 20, 60)` (README). -/
def candidate_k (collectionCount : Nat) : Nat :=
  clampNat (collectionCount * 5 / 1000) 20 60

/-- `rerank_n = clamp(candidate_k * 0.3, 10, 15)` (README). -/
def rerank_n (ck : Nat) : Nat :=
  clampNat (ck * 3 / 10) 10 15

/-- Insert into a list sorted by descending score. -/
def insertDesc {α : Type} (p : α × ℚ) : List (α × ℚ) → List (α × ℚ)
  | [] => [p]
  | q :: rest => if q.2 ≤ p.2 then p :: q :: rest else q :: insertDesc p rest

/-- Sort a scored list by descending score. -/
def sortByScoreDesc {α : Type} (l : List (α × ℚ)) : List (α × ℚ) :=
  l.foldr insertDesc []

/-- The identity-plus-fingerprint key used for fused-candidate
deduplication: same source, page and first 60 quote characters. -/
def citationKey (c : Citation) : String × Option Int × String :=
  (c.source, c.page, String.mk (c.quote.toList.take 60))

/-- Keep the first (highest-scored) occurrence per citation key. -/
def dedupFused (l : List (Citation × ℚ)) : List (Citation × ℚ) :=
  l.foldl
    (fun acc p =>
      if acc.any (fun q => citationKey q.1 = citationKey p.1) then acc
      else acc ++ [p])
    []

/-- Modelled from the spec: the two independent admission gates of the
reranker — an absolute score floor and a relative gap against the top
reranked score; an empty input passes through empty (with a
machine-readable zero-reason upstream, not an error). -/
def applyRerankGates {α : Type} (scored : List (α × ℚ)) : List (α × ℚ) :=
  match scored with
  | [] => []
  | top :: _ =>
      scored.filter
        (fun p => RERANK_SCORE_THRESHOLD ≤ p.2 ∧
                  top.2 - p.2 ≤ RERANK_SCORE_GAP_THRESHOLD)

/-- Modelled from the spec: the `/ask` retrieval pipeline from
`hybrid_retrieval.py` (absent from the source tree): fuse the two
candidate lists with RRF, order by fused score, deduplicate keeping the
first occurrence, rerank the head, apply both gates, return up to
`TOP_K` citations. -/
def hybrid_retrieve (wSem : ℚ) (semList kwList : List Citation)
    (rerankScore : Citation → ℚ) (collectionCount : Nat) : List Citation :=
  let ck := candidate_k collectionCount
  let fused := rrf_fuse wSem (semList.take ck) (kwList.take ck)
  let ranked := sortByScoreDesc fused
  let deduped := dedupFused ranked
  let headN := deduped.take (rerank_n ck)
  let reranked := sortByScoreDesc (headN.map (fun p => (p.1, rerankScore p.1)))
  let gated := applyRerankGates reranked
  (gated.map (·.1)).take TOP_K

/-! ## Ask endpoint (`backend/app/routers/ask.py` fallback semantics) -/

/-- The `/ask` response: the answer may be absent, citations are always
present. -/
structure AskResponse where
  answer : Option String
  citations : List Citation
deriving Repr

/-- Modelled from the spec: the `/ask` route (absent from the source
tree). Retrieval runs first; the text-generation call may fail; per the
README ("LLM失敗時もHTTP 200でcitationsを返す") a failure never
suppresses the retrieved citations. -/
def ask_handler (retrieved : List Citation) (genResult : Except String String) :
    AskResponse :=
  { answer := match genResult with | .ok a => some a | .error _ => none
    citations := retrieved }

/-- The full `/ask` pipeline: hybrid retrieval followed by answer
generation with the citation-preserving fallback. -/
def ask_endpoint (wSem : ℚ) (semList kwList : List Citation)
    (rerankScore : Citation → ℚ) (collectionCount : Nat)
    (genResult : Except String String) : AskResponse :=
  ask_handler (hybrid_retrieve wSem semList kwList rerankScore collectionCount) genResult

/-- The citation slice of `AnswerView`
(`frontend` answer view, `result.citations.slice(0, 5)`). -/
def answerViewCitations (citations : List Citation) : List Citation :=
  citations.take 5

/-! # Theorems -/

/-- A draft whose validation succeeds has a non-empty citations list:
the citations check precedes acceptance. -/
theorem validate_none_citations (s : String) (cs : List Citation)
    (h : validate_quiz_item s cs = none) : cs ≠ [] := by
  intro hnil
  subst hnil
  simp only [validate_quiz_item, List.isEmpty_nil] at h
  split_ifs at h

/-- One generation attempt preserves the loop invariant: never more than
`target` accepted items, and every accepted item has citations. -/
theorem processAttempt_invariant (target : Nat) (st : GenState) (d : Option QuizDraft)
    (h1 : st.accepted.length ≤ target)
    (h2 : ∀ q ∈ st.accepted, q.citations ≠ []) :
    (processAttempt target st d).accepted.length ≤ target ∧
      ∀ q ∈ (processAttempt target st d).accepted, q.citations ≠ [] := by
  simp only [processAttempt]
  split
  · exact ⟨h1, h2⟩
  next hfull =>
    split
    · exact ⟨h1, h2⟩
    next q =>
      split
      · exact ⟨h1, h2⟩
      next hv =>
        split
        · exact ⟨h1, h2⟩
        · constructor
          · simp only [List.length_append, List.length_cons, List.length_nil]
            omega
          · intro x hx
            rcases List.mem_append.mp hx with hx | hx
            · exact h2 x hx
            · simp only [List.mem_singleton] at hx
              subst hx
              exact validate_none_citations _ _ hv

/-- The loop invariant holds after folding any sequence of attempts. -/
theorem genFold_invariant (target : Nat) (attempts : List (Option QuizDraft))
    (st : GenState) (h1 : st.accepted.length ≤ target)
    (h2 : ∀ q ∈ st.accepted, q.citations ≠ []) :
    (attempts.foldl (processAttempt target) st).accepted.length ≤ target ∧
      ∀ q ∈ (attempts.foldl (processAttempt target) st).accepted, q.citations ≠ [] := by
  induction attempts generalizing st with
  | nil => exact ⟨h1, h2⟩
  | cons a rest ih =>
    obtain ⟨h1a, h2a⟩ := processAttempt_invariant target st a h1 h2
    exact ih _ h1a h2a

/-- **C2.** For every quiz-generate request, a successful outcome contains
exactly the target number of items and every item has a non-empty
citations list; when the target is not reached the orchestrator returns
an explicit shortage outcome whose shortfall is positive and at most the
target — never a successful outcome with fewer items. -/
theorem claim_C2_quiz_generate_contract (target : Nat)
    (attempts : List (Option QuizDraft)) :
    (∀ items, generate_quiz_set target attempts = .done items →
        items.length = target ∧ ∀ q ∈ items, q.citations ≠ []) ∧
    (∀ s rejections, generate_quiz_set target attempts = .shortage s rejections →
        0 < s ∧ s ≤ target) := by
  obtain ⟨hlen, hcit⟩ :=
    genFold_invariant target attempts ⟨[], []⟩ (by simp) (by simp)
  constructor
  · intro items h
    simp only [generate_quiz_set] at h
    split_ifs at h with heq
    · injection h with h
      subst h
      exact ⟨heq, hcit⟩
  · intro s rejections h
    simp only [generate_quiz_set] at h
    split_ifs at h with heq
    · injection h with hs hr
      subst hs
      omega

/-- **C2 witness.** A concrete run with one valid attempt succeeds with
exactly one item whose citations are non-empty. -/
theorem claim_C2_quiz_generate_contract_witness :
    ([⟨"避難訓練を年に2回実施する。", true, "説明",
        [⟨"sample.txt", none, "避難訓練は年2回"⟩]⟩] : List QuizDraft).length = 1 ∧
      ∀ q ∈ ([⟨"避難訓練を年に2回実施する。", true, "説明",
        [⟨"sample.txt", none, "避難訓練は年2回"⟩]⟩] : List QuizDraft), q.citations ≠ [] :=
  (claim_C2_quiz_generate_contract 1
      [some ⟨"避難訓練を年に2回実施する。", true, "説明",
        [⟨"sample.txt", none, "避難訓練は年2回"⟩]⟩]).1
    [⟨"避難訓練を年に2回実施する。", true, "説明",
      [⟨"sample.txt", none, "避難訓練は年2回"⟩]⟩] rfl

/-- **C1.** Counter-evaluation: the orchestrator's `_normalize_statement`
strips only whitespace and punctuation, not negation markers, so a
statement and its sentence-final-negated counterpart have different
fingerprints, `_is_duplicate` does not flag the pair, and a generation
run accepts both into one quiz set — an "X" / "not X" pair coexists. -/
theorem claim_C1_negation_blind_dedup :
    _normalize_statement "火災が発生した場合、店内では避難誘導を行う。" ≠
        _normalize_statement "火災が発生した場合、店内では避難誘導を行わない。" ∧
      _is_duplicate "火災が発生した場合、店内では避難誘導を行わない。"
          ["火災が発生した場合、店内では避難誘導を行う。"] = false ∧
      generate_quiz_set 2
          [some ⟨"火災が発生した場合、店内では避難誘導を行う。", true, "解説1",
              [⟨"sample.txt", none, "避難誘導の手順"⟩]⟩,
           some ⟨"火災が発生した場合、店内では避難誘導を行わない。", false, "解説2",
              [⟨"sample.txt", none, "避難誘導の注意点"⟩]⟩] =
        .done
          [⟨"火災が発生した場合、店内では避難誘導を行う。", true, "解説1",
              [⟨"sample.txt", none, "避難誘導の手順"⟩]⟩,
           ⟨"火災が発生した場合、店内では避難誘導を行わない。", false, "解説2",
              [⟨"sample.txt", none, "避難誘導の注意点"⟩]⟩] :=
  ⟨by decide, by decide, rfl⟩

/-- **C3.** Counter-evaluation: when the generation backend returns an
empty citations list, the parser substitutes the fallback citations
verbatim, applying no source filter, so a fallback citation whose source
lies outside the requested filter (here `["sample3.txt"]`) is attached
to the item unchanged. -/
theorem claim_C3_fallback_source_leak :
    resolve_citations (some [])
        [⟨"防犯・災害対応マニュアル（サンプル）.pdf", some 2, "火災時の対応"⟩] =
      [⟨"防犯・災害対応マニュアル（サンプル）.pdf", some 2, "火災時の対応"⟩] ∧
    "防犯・災害対応マニュアル（サンプル）.pdf" ∉ ["sample3.txt"] :=
  ⟨rfl, by decide⟩

/-- **C4.** For every ask request — any candidate lists, any rerank
scores, any collection size, any semantic weight in `[0,1]`, whether or
not answer generation succeeds — the response's citations list has at
most `TOP_K = 5` entries; the answer view likewise renders at most 5. -/
theorem claim_C4_ask_citations_bounded (wSem : ℚ) (semList kwList : List Citation)
    (rerankScore : Citation → ℚ) (collectionCount : Nat)
    (gen : Except String String) (h0 : 0 ≤ wSem) (h1 : wSem ≤ 1) :
    (ask_endpoint wSem semList kwList rerankScore collectionCount gen).citations.length ≤
        TOP_K ∧
      ∀ cs : List Citation, (answerViewCitations cs).length ≤ 5 := by
  constructor
  · simp only [ask_endpoint, ask_handler, hybrid_retrieve, List.length_take]
    exact min_le_left _ _
  · intro cs
    simp only [answerViewCitations, List.length_take]
    exact min_le_left _ _

/-- **C4 witness.** The bound instantiated at a concrete request. -/
theorem claim_C4_ask_citations_bounded_witness :
    (ask_endpoint (7 / 10) [] [] (fun _ => 0) 48 (.error "timeout")).citations.length ≤
        TOP_K ∧
      ∀ cs : List Citation, (answerViewCitations cs).length ≤ 5 :=
  claim_C4_ask_citations_bounded (7 / 10) [] [] (fun _ => 0) 48 (.error "timeout")
    (by norm_num) (by norm_num)

/-- **C5.** The citations component of the ask response is independent of
whether answer generation succeeds: for any two generation outcomes the
citations coincide, and both equal the hybrid-retrieval output. -/
theorem claim_C5_citations_independent (wSem : ℚ) (semList kwList : List Citation)
    (rerankScore : Citation → ℚ) (collectionCount : Nat)
    (g h : Except String String) :
    (ask_endpoint wSem semList kwList rerankScore collectionCount g).citations =
        (ask_endpoint wSem semList kwList rerankScore collectionCount h).citations ∧
      (ask_endpoint wSem semList kwList rerankScore collectionCount g).citations =
        hybrid_retrieve wSem semList kwList rerankScore collectionCount :=
  ⟨rfl, rfl⟩

/-- **C7.** The false-statement guard accepts a mutated statement only
when it is non-empty and differs from the original; whenever the mutator
fails or returns the original (or an empty string), the attempt is
rejected with the stable reason `false_generation_failed` — a "false"
statement identical to the true one is never silently accepted. -/
theorem claim_C7_false_statement_guard (original : String) (fs : Option String) :
    (∀ f, process_false_statement original fs = .ok f → f ≠ original ∧ f ≠ "") ∧
      ((fs = none ∨ fs = some original ∨ fs = some "") →
        process_false_statement original fs = .error "false_generation_failed") := by
  constructor
  · intro f h
    cases fs with
    | none => simp [process_false_statement] at h
    | some g =>
      simp only [process_false_statement] at h
      split_ifs at h with hc
      · injection h with h
        subst h
        exact ⟨hc.2, hc.1⟩
  · rintro (h | h | h) <;> subst h <;> simp [process_false_statement]

/-- **C7 witness.** The mutator's output on a concrete statement passes
the guard and differs from its input. -/
theorem claim_C7_false_statement_guard_witness :
    "避難訓練を年に2回実施しない。" ≠ "避難訓練を年に2回実施する。" ∧
      "避難訓練を年に2回実施しない。" ≠ "" :=
  (claim_C7_false_statement_guard "避難訓練を年に2回実施する。"
      (make_false_statement "避難訓練を年に2回実施する。")).1
    "避難訓練を年に2回実施しない。" rfl

/-- **C8.** The validator rejects exactly when the statement is empty or
below the 12-character minimum, contains an interrogative marker,
contains a vagueness marker, or the citations list is empty or has a
citation with an empty quote or source — and the rejection reason is
always one of the five stable codes. -/
theorem claim_C8_validator_characterization (statement : String)
    (citations : List Citation) :
    ((validate_quiz_item statement citations).isSome = true ↔
      (statement = "" ∨ statement.length < quizMinStatementLen ∨
        (∃ m ∈ interrogativeMarkers, containsSub statement m = true) ∨
        (∃ m ∈ vagueMarkers, containsSub statement m = true) ∨
        citations = [] ∨
        (∃ c ∈ citations, c.quote = "" ∨ c.source = ""))) ∧
      ∀ r, validate_quiz_item statement citations = some r →
        r ∈ ["too_short", "interrogative", "ambiguous_expression",
             "citations_empty", "citation_invalid"] := by
  constructor
  · simp only [validate_quiz_item]
    split_ifs with h1 h2 h3 h4 h5 <;>
      (simp_all [List.any_eq_true, List.isEmpty_iff]; try tauto)
  · intro r h
    simp only [validate_quiz_item] at h
    split_ifs at h <;> simp_all

/-- **C8 witness.** A too-short statement is rejected with a stable
reason code from the fixed list. -/
theorem claim_C8_validator_characterization_witness :
    "too_short" ∈ ["too_short", "interrogative", "ambiguous_expression",
        "citations_empty", "citation_invalid"] :=
  (claim_C8_validator_characterization "短い。" []).2 "too_short" rfl

/-- Updating one key of the fused-score table changes only that key's
score, by the inserted delta. -/
theorem lookupScore_upsertScore {α : Type} [DecidableEq α] (k : α) (d : ℚ)
    (s : List (α × ℚ)) (id : α) :
    lookupScore (upsertScore k d s) id =
      if k = id then lookupScore s id + d else lookupScore s id := by
  induction s with
  | nil =>
    by_cases h : k = id <;> simp [upsertScore, lookupScore, h]
  | cons hd tl ih =>
    obtain ⟨a, x⟩ := hd
    by_cases hak : a = k
    · subst hak
      by_cases haid : a = id <;>
        simp [upsertScore, lookupScore, haid]
    · by_cases haid : a = id
      · subst haid
        have hk : ¬ k = a := fun e => hak e.symm
        simp [upsertScore, lookupScore, hak, hk]
      · simp [upsertScore, lookupScore, hak, haid, ih]

/-- A candidate missing from a list has no rank in it. -/
theorem rankInList_none_of_not_mem {α : Type} [DecidableEq α] (l : List α)
    (id : α) (h : id ∉ l) : rankInList l id = none := by
  induction l with
  | nil => rfl
  | cons a rest ih =>
    simp only [List.mem_cons, not_or] at h
    have ha : ¬ a = id := fun e => h.1 e.symm
    simp [rankInList, ha, ih h.2]

/-- Folding one duplicate-free ranked list into the score table adds
exactly the reciprocal-rank contribution of that list. -/
theorem lookupScore_addListScores {α : Type} [DecidableEq α] (w : ℚ) (l : List α)
    (hl : l.Nodup) (r : Nat) (s : List (α × ℚ)) (id : α) :
    lookupScore (addListScores w l r s) id =
      lookupScore s id +
        (match rankInList l id with
         | some i => w / (RRF_K + ((r + i : Nat) : ℚ))
         | none => 0) := by
  induction l generalizing r s with
  | nil => simp [addListScores, rankInList]
  | cons a rest ih =>
    obtain ⟨ha, hrest⟩ := List.nodup_cons.mp hl
    simp only [addListScores]
    rw [ih hrest, lookupScore_upsertScore]
    by_cases hai : a = id
    · subst hai
      rw [rankInList_none_of_not_mem rest a ha]
      simp [rankInList]
    · simp only [rankInList, hai, if_false]
      cases hri : rankInList rest id with
      | none => simp
      | some i =>
        have harith : r + 1 + i = r + (i + 1) := by omega
        simp [harith]

/-- **C6.** For every query, the fused score of each candidate equals
`w_sem / (RRF_K + rank_sem) + w_kw / (RRF_K + rank_kw)` with 1-based
ranks, a candidate absent from a list contributing 0 for that term; and
the two weights always sum to 1, the keyword weight being derived as
1 minus the caller-supplied semantic weight. -/
theorem claim_C6_rrf_score_formula {α : Type} [DecidableEq α] (wSem : ℚ)
    (semList kwList : List α) (hs : semList.Nodup) (hk : kwList.Nodup) (id : α) :
    lookupScore (rrf_fuse wSem semList kwList) id =
        rrf_formula wSem semList kwList id ∧
      (retrievalSliderWeights wSem).1 + (retrievalSliderWeights wSem).2 = 1 := by
  constructor
  · simp only [rrf_fuse, rrf_formula]
    rw [lookupScore_addListScores _ _ hk, lookupScore_addListScores _ _ hs]
    simp only [lookupScore, zero_add]
    cases rankInList semList id <;> cases rankInList kwList id <;>
      simp [Nat.add_comm]
  · simp only [retrievalSliderWeights]
    ring

/-- **C6 witness.** The fused score of a candidate appearing in both
concrete ranked lists matches the closed formula, and the slider weights
sum to 1. -/
theorem claim_C6_rrf_score_formula_witness :
    lookupScore (rrf_fuse (7 / 10) [10, 20, 30] [20, 40]) 20 =
        rrf_formula (7 / 10) [10, 20, 30] [20, 40] 20 ∧
      (retrievalSliderWeights (7 / 10)).1 + (retrievalSliderWeights (7 / 10)).2 = 1 :=
  claim_C6_rrf_score_formula (7 / 10) [10, 20, 30] [20, 40]
    (by decide) (by decide) 20

/-- **C9.** Every failure of the API layer surfaces as an `ApiError`: a
rejected fetch yields code `NETWORK_ERROR`; a non-ok response whose JSON
body carries `error.code` and `error.message` yields exactly that code
and message plus the HTTP status; every other non-ok response,
unparseable body, or non-object success body yields `INTERNAL_ERROR`;
and a success value is always a truthy object. -/
theorem claim_C9_fetchApi_error_taxonomy (r : HttpResponse) :
    (fetchApi .networkError =
        .error (.apiError (.str "NETWORK_ERROR") (.str networkErrorMessage) none)) ∧
    (∀ data c m, r.ok = false → r.body = some data →
        structuredError data = some (c, m) →
        fetchApi (.response r) = .error (.apiError c m (some r.status))) ∧
    (∀ data, r.ok = false → r.body = some data → structuredError data = none →
        fetchApi (.response r) =
          .error (.apiError (.str "INTERNAL_ERROR")
            (.str (httpStatusMessage r.status r.statusText)) none)) ∧
    (r.body = none → ∃ msg, fetchApi (.response r) =
        .error (.apiError (.str "INTERNAL_ERROR") (.str msg) none)) ∧
    (∀ data, r.ok = true → r.body = some data →
        (data.truthy && data.isObjectType) = false →
        fetchApi (.response r) =
          .error (.apiError (.str "INTERNAL_ERROR") (.str badFormatMessage) none)) ∧
    (∀ v, fetchApi (.response r) = .ok v →
        r.ok = true ∧ r.body = some v ∧ v.truthy = true ∧ v.isObjectType = true) := by
  obtain ⟨ok, status, statusText, body⟩ := r
  refine ⟨rfl, ?_, ?_, ?_, ?_, ?_⟩
  · intro data c m hok hbody hse
    simp only at hok hbody
    subst hok hbody
    simp [fetchApi, hse]
  · intro data hok hbody hse
    simp only at hok hbody
    subst hok hbody
    simp [fetchApi, hse]
  · intro hbody
    simp only at hbody
    subst hbody
    cases ok <;> exact ⟨_, rfl⟩
  · intro data hok hbody hbad
    simp only at hok hbody
    subst hok hbody
    simp [fetchApi, hbad]
  · intro v h
    cases body with
    | none =>
      cases ok <;> simp [fetchApi] at h
    | some data =>
      cases ok with
      | false =>
        simp only [fetchApi] at h
        cases hse : structuredError data <;> simp [hse] at h
      | true =>
        simp only [fetchApi, Bool.not_true] at h
        by_cases hobj : (data.truthy && data.isObjectType) = true
        · simp only [hobj, if_true] at h
          injection h with h
          subst h
          simp only [Bool.and_eq_true] at hobj
          exact ⟨rfl, rfl, hobj.1, hobj.2⟩
        · simp only [Bool.not_eq_true] at hobj
          simp [hobj] at h

/-- **C9 witness.** A concrete 404 response with a structured error body
yields exactly that code and message plus the HTTP status. -/
theorem claim_C9_fetchApi_error_taxonomy_witness :
    fetchApi (.response ⟨false, 404, "Not Found",
        some (.obj [("error", .obj [("code", .str "NOT_FOUND"),
          ("message", .str "みつかりません")])])⟩) =
      .error (.apiError (.str "NOT_FOUND") (.str "みつかりません") (some 404)) :=
  (claim_C9_fetchApi_error_taxonomy ⟨false, 404, "Not Found",
      some (.obj [("error", .obj [("code", .str "NOT_FOUND"),
        ("message", .str "みつかりません")])])⟩).2.1
    (.obj [("error", .obj [("code", .str "NOT_FOUND"),
      ("message", .str "みつかりません")])])
    (.str "NOT_FOUND") (.str "みつかりません") rfl rfl rfl

/-- **C10.** `toApiError` is total and idempotent: every input maps to an
`ApiError`; an `ApiError` input is returned unchanged (so re-application
is the identity); an object carrying truthy `error.code` and
`error.message` maps to an `ApiError` with exactly those fields; every
other input maps to `INTERNAL_ERROR` with a fixed message. -/
theorem claim_C10_toApiError_total_idempotent (e : JsValue) :
    (toApiError e).isApiErrorValue = true ∧
    toApiError (toApiError e) = toApiError e ∧
    (e.isApiErrorValue = true → toApiError e = e) ∧
    (∀ c m, e.isApiErrorValue = false →
        (e.truthy && e.isObjectType && (e.getField "error").isSome) = true →
        ((e.getField "error").getD .undefined).optGet "code" = c →
        ((e.getField "error").getD .undefined).optGet "message" = m →
        (c.truthy && m.truthy) = true →
        toApiError e = .apiError c m none) ∧
    (e.isApiErrorValue = false →
        (((e.getField "error").getD .undefined).optGet "code").truthy = false ∨
          (((e.getField "error").getD .undefined).optGet "message").truthy = false →
        toApiError e =
          .apiError (.str "INTERNAL_ERROR") (.str unknownErrorMessage) none) := by
  have htotal : ∀ x : JsValue, (toApiError x).isApiErrorValue = true := by
    intro x
    simp only [toApiError]
    split_ifs with hx h1 h2
    · exact hx
    · rfl
    · rfl
    · rfl
  have hfix : ∀ x : JsValue, x.isApiErrorValue = true → toApiError x = x := by
    intro x hx
    simp [toApiError, hx]
  refine ⟨htotal e, hfix _ (htotal e), hfix e, ?_, ?_⟩
  · intro c m hnot hstruct hc hm htruthy
    subst hc hm
    simp only [Bool.and_eq_true] at htruthy
    simp [toApiError, hnot, hstruct, htruthy.1, htruthy.2]
  · intro hnot hfalsy
    simp only [toApiError, hnot, Bool.false_eq_true, if_false]
    split_ifs with h1 h2
    · rcases hfalsy with hf | hf <;> simp_all
    · rfl
    · rfl

/-- **C10 witness.** A concrete error-shaped object maps to an
`ApiError` carrying exactly its code and message. -/
theorem claim_C10_toApiError_total_idempotent_witness :
    toApiError (.obj [("error", .obj [("code", .str "NOT_FOUND"),
        ("message", .str "見つかりません")])]) =
      .apiError (.str "NOT_FOUND") (.str "見つかりません") none :=
  (claim_C10_toApiError_total_idempotent
      (.obj [("error", .obj [("code", .str "NOT_FOUND"),
        ("message", .str "見つかりません")])])).2.2.2.1
    (.str "NOT_FOUND") (.str "見つかりません") rfl rfl rfl rfl rfl

end RagQuiz
